import Mathlib

/-!
# Pharos: descriptor set and path finder

A shallow embedding of

* `src/libpharos/descriptors.hpp` (class `DescriptorSet`: the descriptor maps and
  their lookups),
* `src/tools/pathanalyzer/pathfinder.cpp` (`pathfinder_options`, `pathfinder_main`),
* `src/tools/pathanalyzer/tests/compound_condition_param.cpp` (`func`, `main`),

followed by the properties established about them.

Conventions.  A C++ pointer result that may be null is an `Option`.  A non-const
method is a function returning its result together with the descriptor set it
leaves behind.  A run of `pathfinder_main` is its trace of side-effecting steps, in
program order, together with its outcome: a returned exit code or the exception that
left the function.  The functions that `pathfinder_main` calls and whose code is
outside these three files are fields of an environment record, so every statement
about a run holds for all behaviours of those collaborators.  The descriptor types,
the descriptor maps and the two get-or-create operations, which `descriptors.hpp`
only declares or includes, follow the specification; their doc comments say so.
-/

namespace pharos

/-! ## Descriptors and the descriptor maps -/

/-- The ROSE address type `rose_addr_t` (an unsigned 64-bit integer; no arithmetic is
performed on addresses here, they are only compared). -/
abbrev rose_addr_t := Nat

/-- The part of ROSE's `SgAsmFunction` that `descriptors.hpp` uses: the entry address
returned by `get_entry_va()`. -/
structure SgAsmFunction where
  entry_va : rose_addr_t
  name : String
deriving DecidableEq, Repr

/-- Accessor `SgAsmFunction::get_entry_va()`. -/
def SgAsmFunction.get_entry_va (f : SgAsmFunction) : rose_addr_t := f.entry_va

/-- Modelled from the spec: `FunctionDescriptor` is declared in `funcs.hpp`, which is
not part of the sources.  A function descriptor "represents one recovered function"
with its "entry address"; `func` is the constructor argument forwarded by
`add_function_descriptor`, and `oid` is the identity of the instance (two separately
constructed descriptors never share it), which is what a `FunctionDescriptor*`
designates. -/
structure FunctionDescriptor where
  oid : Nat
  address : rose_addr_t
  func : Option SgAsmFunction
  stack_delta : Option Int
deriving DecidableEq, Repr

/-- Modelled from the spec: `CallDescriptor` is declared in `calls.hpp`, which is not
part of the sources.  A call descriptor "represents one call instruction site" with
its "call-site address", its resolved target, if any, and the enclosing function. -/
structure CallDescriptor where
  oid : Nat
  address : rose_addr_t
  target : Option rose_addr_t
  enclosing : rose_addr_t
deriving DecidableEq, Repr

/-- Modelled from the spec: `ImportDescriptor` is declared in `imports.hpp`, which is
not part of the sources.  An import descriptor "represents an external symbol
(library name + symbol name, optionally an ordinal)" with the "address of the import
thunk/stub" and a stack delta "when known". -/
structure ImportDescriptor where
  oid : Nat
  address : rose_addr_t
  dll : String
  name : String
  ord : Nat
  stack_delta : Option Int
deriving DecidableEq, Repr

/-- Modelled from the spec: `GlobalMemoryDescriptor` is declared in `globals.hpp`,
which is not part of the sources.  It "represents a statically addressable memory
location" with its "address" and the "set of referencing instructions split into
reads and writes". -/
structure GlobalMemoryDescriptor where
  oid : Nat
  address : rose_addr_t
  reads : List rose_addr_t
  writes : List rose_addr_t
deriving DecidableEq, Repr

/-- Modelled from the spec: the map types `FunctionDescriptorMap`, `CallDescriptorMap`,
`ImportDescriptorMap` and `GlobalMemoryDescriptorMap` are declared in headers that are
not part of the sources.  "All descriptor maps are keyed by address", with "one
descriptor per unique address": a finite map from addresses to descriptors whose keys
are pairwise distinct. -/
abbrev DescriptorMap (D : Type) := AList (fun _ : rose_addr_t => D)

abbrev FunctionDescriptorMap := DescriptorMap FunctionDescriptor
abbrev CallDescriptorMap := DescriptorMap CallDescriptor
abbrev ImportDescriptorMap := DescriptorMap ImportDescriptor
abbrev GlobalMemoryDescriptorMap := DescriptorMap GlobalMemoryDescriptor

/-- The `ImportVariableMap` of `descriptors.hpp`, `std::map<size_t, ImportDescriptor*>`:
from a loader variable id to an import descriptor, the pointer being held as the
address that keys the descriptor in `import_descriptors`. -/
abbrev ImportVariableMap := AList (fun _ : Nat => rose_addr_t)

/-- Modelled from the spec: `FunctionDescriptorMap::get_func` is defined in `funcs.hpp`,
which is not part of the sources.  It must "return the descriptor or a not found
signal (no exception for ordinary lookup misses)". -/
def FunctionDescriptorMap.get_func (m : FunctionDescriptorMap) (a : rose_addr_t) :
    Option FunctionDescriptor :=
  AList.lookup a m

/-- Modelled from the spec: `CallDescriptorMap::get_call` is defined in `calls.hpp`,
which is not part of the sources.  It must "return the descriptor or a not found
signal (no exception for ordinary lookup misses)". -/
def CallDescriptorMap.get_call (m : CallDescriptorMap) (a : rose_addr_t) :
    Option CallDescriptor :=
  AList.lookup a m

/-- Modelled from the spec: `ImportDescriptorMap::get_import` is defined in
`imports.hpp`, which is not part of the sources.  It must "return the descriptor or a
not found signal (no exception for ordinary lookup misses)". -/
def ImportDescriptorMap.get_import (m : ImportDescriptorMap) (a : rose_addr_t) :
    Option ImportDescriptor :=
  AList.lookup a m

/-- Modelled from the spec: `GlobalMemoryDescriptorMap::get_global` is defined in
`globals.hpp`, which is not part of the sources.  It must "return the descriptor or a
not found signal (no exception for ordinary lookup misses)". -/
def GlobalMemoryDescriptorMap.get_global (m : GlobalMemoryDescriptorMap) (a : rose_addr_t) :
    Option GlobalMemoryDescriptor :=
  AList.lookup a m

/-- The data members of class `DescriptorSet` that hold descriptors
(`descriptors.hpp`, lines 44-48), and `next_oid`, the identity that the next
constructed descriptor receives. -/
structure DescriptorSet where
  call_descriptors : CallDescriptorMap
  function_descriptors : FunctionDescriptorMap
  import_descriptors : ImportDescriptorMap
  import_variables : ImportVariableMap
  global_descriptors : GlobalMemoryDescriptorMap
  next_oid : Nat

/-- A descriptor set without any descriptor. -/
def DescriptorSet.empty : DescriptorSet :=
  { call_descriptors := ∅, function_descriptors := ∅, import_descriptors := ∅,
    import_variables := ∅, global_descriptors := ∅, next_oid := 0 }

namespace DescriptorSet

/-- Method `FunctionDescriptor* get_rw_func(rose_addr_t a)`, line 160. -/
def get_rw_func (ds : DescriptorSet) (a : rose_addr_t) :
    Option FunctionDescriptor × DescriptorSet :=
  (ds.function_descriptors.get_func a, ds)

/-- Method `CallDescriptor* get_rw_call(rose_addr_t a)`, line 164. -/
def get_rw_call (ds : DescriptorSet) (a : rose_addr_t) :
    Option CallDescriptor × DescriptorSet :=
  (ds.call_descriptors.get_call a, ds)

/-- Method `ImportDescriptor* get_rw_import(rose_addr_t a)`, line 169. -/
def get_rw_import (ds : DescriptorSet) (a : rose_addr_t) :
    Option ImportDescriptor × DescriptorSet :=
  (ds.import_descriptors.get_import a, ds)

/-- Method `GlobalMemoryDescriptor* get_rw_global(rose_addr_t a)`, line 173. -/
def get_rw_global (ds : DescriptorSet) (a : rose_addr_t) :
    Option GlobalMemoryDescriptor × DescriptorSet :=
  (ds.global_descriptors.get_global a, ds)

/-- Method `const FunctionDescriptor* get_func(rose_addr_t a) const`, line 181. -/
def get_func (ds : DescriptorSet) (a : rose_addr_t) : Option FunctionDescriptor :=
  ds.function_descriptors.get_func a

/-- Method `const CallDescriptor* get_call(rose_addr_t a) const`, line 184. -/
def get_call (ds : DescriptorSet) (a : rose_addr_t) : Option CallDescriptor :=
  ds.call_descriptors.get_call a

/-- Method `const ImportDescriptor* get_import(rose_addr_t a) const`, line 187. -/
def get_import (ds : DescriptorSet) (a : rose_addr_t) : Option ImportDescriptor :=
  ds.import_descriptors.get_import a

/-- Method `const GlobalMemoryDescriptor* get_global(rose_addr_t a) const`, line 190. -/
def get_global (ds : DescriptorSet) (a : rose_addr_t) : Option GlobalMemoryDescriptor :=
  ds.global_descriptors.get_global a

/-- Method `const FunctionDescriptorMap& get_func_map() const`, line 198. -/
def get_func_map (ds : DescriptorSet) : FunctionDescriptorMap := ds.function_descriptors

/-- Method `const CallDescriptorMap& get_call_map() const`, line 199. -/
def get_call_map (ds : DescriptorSet) : CallDescriptorMap := ds.call_descriptors

/-- Method `const ImportDescriptorMap& get_import_map() const`, line 200. -/
def get_import_map (ds : DescriptorSet) : ImportDescriptorMap := ds.import_descriptors

/-- Method `const GlobalMemoryDescriptorMap& get_global_map() const`, line 201. -/
def get_global_map (ds : DescriptorSet) : GlobalMemoryDescriptorMap := ds.global_descriptors

/-- Modelled from the spec: the template `add_function_descriptor(rose_addr_t addr,
Args &&... args)` is only declared in `descriptors.hpp` (line 97); its body is not
part of the sources.  Get-or-create: it "constructs a new descriptor on first sight of
an address, otherwise returns the existing one", so that "a second discovery of the
same address returns the existing descriptor rather than creating a duplicate". -/
def add_function_descriptor (ds : DescriptorSet) (addr : rose_addr_t)
    (args : Option SgAsmFunction) : FunctionDescriptor × DescriptorSet :=
  match ds.function_descriptors.get_func addr with
  | some fd => (fd, ds)
  | none =>
    let fd : FunctionDescriptor :=
      { oid := ds.next_oid, address := addr, func := args, stack_delta := none }
    (fd, { ds with function_descriptors := AList.insert addr fd ds.function_descriptors,
                   next_oid := ds.next_oid + 1 })

/-- Method `FunctionDescriptor *add_function_descriptor(SgAsmFunction *func)`, lines 99-101:
the recovered function is keyed by its entry address. -/
def add_function_descriptor_SgAsmFunction (ds : DescriptorSet) (func : SgAsmFunction) :
    FunctionDescriptor × DescriptorSet :=
  ds.add_function_descriptor func.get_entry_va (some func)

/-- Modelled from the spec: `add_import(rose_addr_t addr, std::string dll, std::string
name, size_t ord = 0)` is only declared in `descriptors.hpp` (line 116); its body is
not part of the sources.  It "inserts or returns the existing import descriptor for
the address"; the registration in the import-variable map happens "once a symbolic
identifier is bound to it (a separate, later call)" and is therefore not part of this
step. -/
def add_import (ds : DescriptorSet) (addr : rose_addr_t) (dll name : String) (ord : Nat) :
    ImportDescriptor × DescriptorSet :=
  match ds.import_descriptors.get_import addr with
  | some id => (id, ds)
  | none =>
    let id : ImportDescriptor :=
      { oid := ds.next_oid, address := addr, dll := dll, name := name, ord := ord,
        stack_delta := none }
    (id, { ds with import_descriptors := AList.insert addr id ds.import_descriptors,
                   next_oid := ds.next_oid + 1 })

end DescriptorSet

/-! ## The path finder tool (`pathfinder.cpp`) -/

/-- One entry of a `boost::program_options` description: the option name with its
short form, whether the value is required (`po::value<T>()->required()`), and the
help text. -/
structure OptionDescription where
  name : String
  required : Bool
  description : String
deriving DecidableEq, Repr

/-- The option description `ProgOptDesc` (a caption and its options). -/
structure ProgOptDesc where
  caption : String
  options : List OptionDescription
deriving DecidableEq, Repr

/-- The member `ProgOptDesc::add`: appends the options of another description. -/
def ProgOptDesc.add (d other : ProgOptDesc) : ProgOptDesc :=
  { d with options := d.options ++ other.options }

/-- The parsed options `ProgOptVarMap`, restricted to string-valued options: the value
stored under an option name, if the option was supplied. -/
abbrev ProgOptVarMap := String → Option String

/-- The option map that stores `value` (or nothing) under `key` and is `vm` elsewhere. -/
def ProgOptVarMap.set (vm : ProgOptVarMap) (key : String) (value : Option String) :
    ProgOptVarMap :=
  fun k => if k = key then value else vm k

/-- The constant `z3::check_result` of the Z3 C++ API. -/
inductive check_result
  | unsat
  | sat
  | unknown
deriving DecidableEq, Repr

/-- The rendering of a `z3::expr`; the path finder only prints it. -/
abbrev expr := String

/-- An exception leaving `pathfinder_main`: the `std::invalid_argument` that
`pathfinder_main` throws itself (lines 39 and 42), or an exception raised inside one of
the functions it calls, which it does not catch. -/
inductive Exception
  | invalid_argument (what : String)
  | propagated (callee : String) (what : String)
deriving DecidableEq, Repr

/-- The side-effecting steps of `pathfinder_main`, in the order of the program text. -/
inductive Event
  /-- Line 26, `set_glog_name("PF")`. -/
  | set_glog_name (name : String)
  /-- Line 32, `parse_cert_options(argc, argv, chcod)`. -/
  | parse_cert_options (argv : List String)
  /-- Line 35, `DescriptorSet ds(vm)`. -/
  | construct_DescriptorSet
  /-- Line 36, `ds.resolve_imports()`. -/
  | resolve_imports
  /-- Lines 44 and 45, `parse_number(...)`. -/
  | parse_number (text : String)
  /-- Line 48, `PharosZ3Solver z3`. -/
  | construct_PharosZ3Solver
  /-- Line 49, `SpacerAnalyzer sa(ds, z3, engine)`. -/
  | construct_SpacerAnalyzer (engine : String)
  /-- Line 54, `sa.find_path_hierarchical(srcaddr, tgtaddr, ...)`. -/
  | find_path_hierarchical (srcaddr tgtaddr : rose_addr_t)
  /-- Line 56, the log line "The CHC encoding is:". -/
  | log_encoding_header
  /-- Line 57, `std::cout << sa.to_string()`. -/
  | cout_encoding (text : String)
  /-- Line 59, the log line "The result is" with the verdict. -/
  | log_result (res : check_result)
  /-- Line 61, the log line "The answer is:" with the answer. -/
  | log_answer (ans : Option expr)
deriving DecidableEq, Repr

/-- A run: the steps performed, and how the function was left. -/
structure Run where
  trace : List Event
  result : Except Exception Int

/-- The functions called by `pathfinder_main` whose code is outside the sources.
`Analyzer` is the state of a `SpacerAnalyzer`.  A function that can raise an exception
returns the `what()` text in `Except.error`. -/
structure Env (Analyzer : Type) where
  /-- The options of `cert_standard_options()`. -/
  cert_standard_options : ProgOptDesc
  /-- Parses the command line against the description. -/
  parse_cert_options : List String → ProgOptDesc → Except String ProgOptVarMap
  /-- The constructor `DescriptorSet(const ProgOptVarMap&)`, line 127 of
  `descriptors.hpp`. -/
  DescriptorSet_ctor : ProgOptVarMap → Except String DescriptorSet
  /-- The method `DescriptorSet::resolve_imports()`, line 142 of `descriptors.hpp`;
  never aborts the run: "enrichment failures (import resolution, convention matching)
  are caught and downgraded". -/
  resolve_imports : DescriptorSet → DescriptorSet
  /-- The method `DescriptorSet::get_func_containing_address`, line 206 of
  `descriptors.hpp`. -/
  get_func_containing_address : DescriptorSet → rose_addr_t → Option FunctionDescriptor
  /-- Converts the text of an address option to a number. -/
  parse_number : String → Except String rose_addr_t
  /-- The constructor `SpacerAnalyzer(ds, z3, engine)`. -/
  SpacerAnalyzer_ctor : DescriptorSet → String → Except String Analyzer
  /-- The method `SpacerAnalyzer::find_path_hierarchical`; the last argument is the
  optional stream for the SMT output.  Returns the verdict, the answer, and the
  analyzer state it leaves. -/
  find_path_hierarchical : Analyzer → rose_addr_t → rose_addr_t → Option String →
    Except String ((check_result × Option expr) × Analyzer)
  /-- The method `SpacerAnalyzer::to_string()`. -/
  to_string : Analyzer → String

/-- The constant `version`, line 8. -/
def version : String := "0.1"

/-- The value `EXIT_SUCCESS` of `<cstdlib>`. -/
def EXIT_SUCCESS : Int := 0

/-- Function `ProgOptDesc pathfinder_options()`, lines 12-22.  None of the three options is
declared with `->required()`. -/
def pathfinder_options : ProgOptDesc :=
  { caption := "PathFinder version " ++ version ++ " options"
    options :=
      [ { name := "target,t", required := false, description := "The goal address" },
        { name := "source,s", required := false, description := "The source address" },
        { name := "engine,e", required := false,
          description := "The analysis engine (probably spacer)" } ] }

/-- Function `int pathfinder_main(int argc, char **argv)`, lines 24-65.  The test
`vm.count(key)` and the read `vm[key].as<std::string>()` that it guards are one
`match` on the value stored under `key`. -/
def pathfinder_main {Analyzer : Type} (env : Env Analyzer) (argv : List String) : Run :=
  let t := [Event.set_glog_name "PF"]
  -- Handle options
  let chcod := pathfinder_options
  let csod := env.cert_standard_options
  let chcod := chcod.add csod
  let t := t ++ [Event.parse_cert_options argv]
  match env.parse_cert_options argv chcod with
  | .error what => ⟨t, .error (.propagated "parse_cert_options" what)⟩
  | .ok vm =>
  -- Find calls, functions, and imports.
  let t := t ++ [Event.construct_DescriptorSet]
  match env.DescriptorSet_ctor vm with
  | .error what => ⟨t, .error (.propagated "DescriptorSet" what)⟩
  | .ok ds =>
  let t := t ++ [Event.resolve_imports]
  let ds := env.resolve_imports ds
  match vm "source" with
  | none => ⟨t, .error (.invalid_argument "You forgot to specify a source address.")⟩
  | some source =>
  match vm "target" with
  | none => ⟨t, .error (.invalid_argument "You forgot to specify a target address.")⟩
  | some target =>
  let t := t ++ [Event.parse_number source]
  match env.parse_number source with
  | .error what => ⟨t, .error (.propagated "parse_number" what)⟩
  | .ok srcaddr =>
  let t := t ++ [Event.parse_number target]
  match env.parse_number target with
  | .error what => ⟨t, .error (.propagated "parse_number" what)⟩
  | .ok tgtaddr =>
  let engine := match vm "engine" with
    | some engine => engine
    | none => "spacer"
  let t := t ++ [Event.construct_PharosZ3Solver, Event.construct_SpacerAnalyzer engine]
  match env.SpacerAnalyzer_ctor ds engine with
  | .error what => ⟨t, .error (.propagated "SpacerAnalyzer" what)⟩
  | .ok sa =>
  let t := t ++ [Event.find_path_hierarchical srcaddr tgtaddr]
  match env.find_path_hierarchical sa srcaddr tgtaddr none with
  | .error what => ⟨t, .error (.propagated "find_path_hierarchical" what)⟩
  | .ok ((res, ans), sa) =>
  let t := t ++ [Event.log_encoding_header, Event.cout_encoding (env.to_string sa ++ "\n")]
  let t := t ++ [Event.log_result res]
  let t := if res ≠ check_result.unknown then t ++ [Event.log_answer ans] else t
  ⟨t, .ok EXIT_SUCCESS⟩

/-! ## The test program `compound_condition_param.cpp` -/

namespace compound_condition_param

/-- The two marker calls of `test.hpp` that delimit a path query. -/
inductive Marker
  | path_start
  | path_goal
deriving DecidableEq, Repr

/-- Function `void func(volatile int n)`, lines 5-10: the marker calls it performs, in
order.  Both reads of the parameter `n` yield the argument; the comparisons involve no
arithmetic, so no overflow can occur. -/
def func (n : Int) : List Marker :=
  let t := [Marker.path_start]
  if n > 2 && n < 10 then
    t ++ [Marker.path_goal]
  else
    t

/-- Function `int main()`, lines 11-13; `INT_RAND` is the value the macro yields. -/
def main (INT_RAND : Int) : List Marker :=
  func INT_RAND

/-- The least value of a 32-bit `int`. -/
def INT_MIN : Int := -2147483648

/-- The greatest value of a 32-bit `int`. -/
def INT_MAX : Int := 2147483647

end compound_condition_param

/-! ## Vocabulary for statements about runs -/

/-- The steps every run performs before the address options are examined. -/
def setup_trace (argv : List String) : List Event :=
  [Event.set_glog_name "PF", Event.parse_cert_options argv,
   Event.construct_DescriptorSet, Event.resolve_imports]

/-- The engine name handed to the analyzer (line 46). -/
def engine_of (vm : ProgOptVarMap) : String :=
  match vm "engine" with
  | some engine => engine
  | none => "spacer"

/-- The steps from the first `parse_number` up to the call of the solver. -/
def query_trace (vm : ProgOptVarMap) (source target : String) (srcaddr tgtaddr : rose_addr_t) :
    List Event :=
  [Event.parse_number source, Event.parse_number target, Event.construct_PharosZ3Solver,
   Event.construct_SpacerAnalyzer (engine_of vm), Event.find_path_hierarchical srcaddr tgtaddr]

/-- Whether a step is a call of `find_path_hierarchical`. -/
def Event.is_find_path_hierarchical : Event → Bool
  | .find_path_hierarchical _ _ => true
  | _ => false

/-- Whether a step is the construction of the analyzer. -/
def Event.is_construct_SpacerAnalyzer : Event → Bool
  | .construct_SpacerAnalyzer _ => true
  | _ => false

/-- Whether a step emits the answer (line 61). -/
def Event.is_log_answer : Event → Bool
  | .log_answer _ => true
  | _ => false

/-- A run is rejected by `pathfinder_main` itself when it ends in the
`std::invalid_argument` thrown at line 39 or line 42. -/
def Run.rejected (r : Run) : Bool :=
  match r.result with
  | .error (.invalid_argument _) => true
  | _ => false

/-! ## A concrete environment

Used to evaluate `pathfinder_main` on explicit command lines. -/

/-- An analyzer state for the concrete environment: the engine it was built with and
the number of queries it has answered. -/
structure DemoAnalyzer where
  engine : String
  queries : Nat
deriving DecidableEq, Repr

/-- A command-line reader that understands `--source`, `--target` and `--engine`,
each followed by its value. -/
def demo_options : List String → ProgOptVarMap
  | "--source" :: v :: rest => (demo_options rest).set "source" (some v)
  | "--target" :: v :: rest => (demo_options rest).set "target" (some v)
  | "--engine" :: v :: rest => (demo_options rest).set "engine" (some v)
  | _ => fun _ => none

/-- An environment in which every set-up step succeeds, the descriptor set has no
function at all, and the solver answers every query with the given verdict and
answer. -/
def demoEnv (verdict : check_result) (ans : Option expr) : Env DemoAnalyzer :=
  { cert_standard_options := { caption := "CERT options", options := [] }
    parse_cert_options := fun argv _ => .ok (demo_options argv)
    DescriptorSet_ctor := fun _ => .ok DescriptorSet.empty
    resolve_imports := fun ds => ds
    get_func_containing_address := fun _ _ => none
    parse_number := fun text =>
      if text = "0x401000" then .ok 4198400
      else if text = "0x401020" then .ok 4198432
      else .error "not a number"
    SpacerAnalyzer_ctor := fun _ engine => .ok { engine := engine, queries := 0 }
    find_path_hierarchical := fun sa _ _ _ =>
      .ok ((verdict, ans), { sa with queries := sa.queries + 1 })
    to_string := fun sa => "(chc " ++ sa.engine ++ ")" }

/-! ## Shape of a run, stage by stage -/

theorem run_missing_source {A : Type} (env : Env A) (argv : List String)
    (vm : ProgOptVarMap) (ds : DescriptorSet)
    (hvm : env.parse_cert_options argv (pathfinder_options.add env.cert_standard_options)
      = .ok vm)
    (hds : env.DescriptorSet_ctor vm = .ok ds)
    (hs : vm "source" = none) :
    pathfinder_main env argv =
      ⟨setup_trace argv,
       .error (.invalid_argument "You forgot to specify a source address.")⟩ := by
  simp [pathfinder_main, setup_trace, hvm, hds, hs]

theorem run_missing_target {A : Type} (env : Env A) (argv : List String)
    (vm : ProgOptVarMap) (ds : DescriptorSet) (source : String)
    (hvm : env.parse_cert_options argv (pathfinder_options.add env.cert_standard_options)
      = .ok vm)
    (hds : env.DescriptorSet_ctor vm = .ok ds)
    (hs : vm "source" = some source) (ht : vm "target" = none) :
    pathfinder_main env argv =
      ⟨setup_trace argv,
       .error (.invalid_argument "You forgot to specify a target address.")⟩ := by
  simp [pathfinder_main, setup_trace, hvm, hds, hs, ht]

theorem run_verdict {A : Type} (env : Env A) (argv : List String)
    (vm : ProgOptVarMap) (ds : DescriptorSet) (source target : String)
    (srcaddr tgtaddr : rose_addr_t) (sa sa' : A) (res : check_result) (ans : Option expr)
    (hvm : env.parse_cert_options argv (pathfinder_options.add env.cert_standard_options)
      = .ok vm)
    (hds : env.DescriptorSet_ctor vm = .ok ds)
    (hs : vm "source" = some source) (ht : vm "target" = some target)
    (hsa : env.parse_number source = .ok srcaddr)
    (hta : env.parse_number target = .ok tgtaddr)
    (han : env.SpacerAnalyzer_ctor (env.resolve_imports ds) (engine_of vm) = .ok sa)
    (hq : env.find_path_hierarchical sa srcaddr tgtaddr none = .ok ((res, ans), sa')) :
    pathfinder_main env argv =
      ⟨setup_trace argv ++ query_trace vm source target srcaddr tgtaddr ++
         [Event.log_encoding_header, Event.cout_encoding (env.to_string sa' ++ "\n"),
          Event.log_result res] ++
         (if res ≠ check_result.unknown then [Event.log_answer ans] else []),
       .ok EXIT_SUCCESS⟩ := by
  unfold engine_of at han
  by_cases hr : res = check_result.unknown <;>
    simp [pathfinder_main, setup_trace, query_trace, engine_of, hvm, hds, hs, ht, hsa, hta,
      han, hq, hr]

theorem run_with_addresses_not_rejected {A : Type} (env : Env A) (argv : List String)
    (vm : ProgOptVarMap) (ds : DescriptorSet) (source target : String)
    (hvm : env.parse_cert_options argv (pathfinder_options.add env.cert_standard_options)
      = .ok vm)
    (hds : env.DescriptorSet_ctor vm = .ok ds)
    (hs : vm "source" = some source) (ht : vm "target" = some target) :
    (pathfinder_main env argv).rejected = false := by
  cases hsa : env.parse_number source with
  | error what => simp [pathfinder_main, Run.rejected, hvm, hds, hs, ht, hsa]
  | ok srcaddr =>
    cases hta : env.parse_number target with
    | error what => simp [pathfinder_main, Run.rejected, hvm, hds, hs, ht, hsa, hta]
    | ok tgtaddr =>
      cases han : env.SpacerAnalyzer_ctor (env.resolve_imports ds) (engine_of vm) with
      | error what =>
        unfold engine_of at han
        simp [pathfinder_main, Run.rejected, hvm, hds, hs, ht, hsa, hta, han]
      | ok sa =>
        cases hq : env.find_path_hierarchical sa srcaddr tgtaddr none with
        | error what =>
          unfold engine_of at han
          simp [pathfinder_main, Run.rejected, hvm, hds, hs, ht, hsa, hta, han, hq]
        | ok r =>
          obtain ⟨⟨res, ans⟩, sa'⟩ := r
          rw [run_verdict env argv vm ds source target srcaddr tgtaddr sa sa' res ans
            hvm hds hs ht hsa hta han hq]
          rfl

theorem run_analyzer_event {A : Type} (env : Env A) (argv : List String)
    (vm : ProgOptVarMap) (ds : DescriptorSet) (source target : String)
    (srcaddr tgtaddr : rose_addr_t)
    (hvm : env.parse_cert_options argv (pathfinder_options.add env.cert_standard_options)
      = .ok vm)
    (hds : env.DescriptorSet_ctor vm = .ok ds)
    (hs : vm "source" = some source) (ht : vm "target" = some target)
    (hsa : env.parse_number source = .ok srcaddr)
    (hta : env.parse_number target = .ok tgtaddr) (e : String) :
    Event.construct_SpacerAnalyzer e ∈ (pathfinder_main env argv).trace ↔
      e = engine_of vm := by
  cases han : env.SpacerAnalyzer_ctor (env.resolve_imports ds) (engine_of vm) with
  | error what =>
    unfold engine_of at han
    simp [pathfinder_main, engine_of, hvm, hds, hs, ht, hsa, hta, han]
  | ok sa =>
    cases hq : env.find_path_hierarchical sa srcaddr tgtaddr none with
    | error what =>
      unfold engine_of at han
      simp [pathfinder_main, engine_of, hvm, hds, hs, ht, hsa, hta, han, hq]
    | ok r =>
      obtain ⟨⟨res, ans⟩, sa'⟩ := r
      rw [run_verdict env argv vm ds source target srcaddr tgtaddr sa sa' res ans
        hvm hds hs ht hsa hta han hq]
      by_cases h : res = check_result.unknown <;> simp [setup_trace, query_trace, h]

theorem run_reaches_solver {A : Type} (env : Env A) (argv : List String)
    (a b : rose_addr_t)
    (hq : Event.find_path_hierarchical a b ∈ (pathfinder_main env argv).trace) :
    ∃ vm ds source target sa,
      env.parse_cert_options argv (pathfinder_options.add env.cert_standard_options) = .ok vm ∧
      env.DescriptorSet_ctor vm = .ok ds ∧
      vm "source" = some source ∧ vm "target" = some target ∧
      env.parse_number source = .ok a ∧ env.parse_number target = .ok b ∧
      env.SpacerAnalyzer_ctor (env.resolve_imports ds) (engine_of vm) = .ok sa ∧
      ∃ tail, (pathfinder_main env argv).trace =
        setup_trace argv ++ query_trace vm source target a b ++ tail ∧
        ∀ e ∈ tail, e = Event.log_encoding_header ∨ (∃ text, e = Event.cout_encoding text) ∨
          (∃ res, e = Event.log_result res) ∨ (∃ ans, e = Event.log_answer ans) := by
  unfold pathfinder_main at hq ⊢
  simp only [] at hq ⊢
  split at hq
  · simp at hq
  rename_i vm hvm
  split at hq
  · simp at hq
  rename_i ds hds
  split at hq
  · simp at hq
  rename_i source hs
  split at hq
  · simp at hq
  rename_i target ht
  split at hq
  · simp at hq
  rename_i srcaddr hsa
  split at hq
  · simp at hq
  rename_i tgtaddr hta
  split at hq
  · simp at hq
  rename_i sa han
  have hab : a = srcaddr ∧ b = tgtaddr := by
    split at hq
    · simpa using hq
    · split at hq <;> simpa using hq
  obtain ⟨rfl, rfl⟩ := hab
  refine ⟨vm, ds, source, target, sa, hvm, hds, hs, ht, hsa, hta, han, ?_⟩
  cases hfp : env.find_path_hierarchical sa a b none with
  | error what =>
    exact ⟨[], by simp [setup_trace, query_trace, engine_of], by simp⟩
  | ok r =>
    obtain ⟨⟨res, ans⟩, sa'⟩ := r
    by_cases hr : res = check_result.unknown
    · exact ⟨[Event.log_encoding_header, Event.cout_encoding (env.to_string sa' ++ "\n"),
        Event.log_result res], by simp [setup_trace, query_trace, engine_of, hr], by simp⟩
    · exact ⟨[Event.log_encoding_header, Event.cout_encoding (env.to_string sa' ++ "\n"),
        Event.log_result res, Event.log_answer ans],
        by simp [setup_trace, query_trace, engine_of, hr], by simp⟩


/-! ## Missing address options (lines 38-43) -/

/-- C2 fails as stated: on a command line without `--source`, the trace that precedes
the `std::invalid_argument` contains both the construction of the `DescriptorSet` and
`resolve_imports()`. -/
theorem pathfinder_main_checks_after_descriptor_set :
    (pathfinder_main (demoEnv check_result.sat none) ["--target", "0x401020"]).result =
      .error (.invalid_argument "You forgot to specify a source address.") ∧
    Event.construct_DescriptorSet ∈
      (pathfinder_main (demoEnv check_result.sat none) ["--target", "0x401020"]).trace ∧
    Event.resolve_imports ∈
      (pathfinder_main (demoEnv check_result.sat none) ["--target", "0x401020"]).trace :=
  ⟨rfl, by decide, by decide⟩

/-- C2, amended: in every run in which the source or the target option is missing
(the options having been parsed and the descriptor set constructed), the error is
reported after the `DescriptorSet` is constructed and `resolve_imports()` is performed
and before any work on the query: the steps preceding the error are exactly
`set_glog_name`, `parse_cert_options`, the construction of the `DescriptorSet` and
`resolve_imports()`, so no address is parsed, no solver or analyzer is constructed and
`find_path_hierarchical` is not called. -/
theorem pathfinder_main_missing_address_trace {A : Type} (env : Env A)
    (argv : List String) (vm : ProgOptVarMap) (ds : DescriptorSet)
    (hvm : env.parse_cert_options argv (pathfinder_options.add env.cert_standard_options)
      = .ok vm)
    (hds : env.DescriptorSet_ctor vm = .ok ds)
    (hmiss : vm "source" = none ∨ vm "target" = none) :
    (pathfinder_main env argv).trace =
      [Event.set_glog_name "PF", Event.parse_cert_options argv,
       Event.construct_DescriptorSet, Event.resolve_imports] ∧
    (pathfinder_main env argv).rejected = true := by
  cases hs : vm "source" with
  | none =>
    rw [run_missing_source env argv vm ds hvm hds hs]
    exact ⟨rfl, rfl⟩
  | some source =>
    have ht : vm "target" = none := by
      rcases hmiss with h | h
      · rw [hs] at h; cases h
      · exact h
    rw [run_missing_target env argv vm ds source hvm hds hs ht]
    exact ⟨rfl, rfl⟩

/-- C2 amended, at a concrete command line without `--target`. -/
theorem pathfinder_main_missing_address_trace_witness :
    (demoEnv check_result.sat none).DescriptorSet_ctor (demo_options ["--source", "0x401000"])
      = .ok DescriptorSet.empty ∧
    demo_options ["--source", "0x401000"] "target" = none ∧
    (pathfinder_main (demoEnv check_result.sat none) ["--source", "0x401000"]).trace =
      [Event.set_glog_name "PF", Event.parse_cert_options ["--source", "0x401000"],
       Event.construct_DescriptorSet, Event.resolve_imports] ∧
    (pathfinder_main (demoEnv check_result.sat none) ["--source", "0x401000"]).rejected
      = true :=
  ⟨rfl, rfl,
   pathfinder_main_missing_address_trace (demoEnv check_result.sat none)
     ["--source", "0x401000"] (demo_options ["--source", "0x401000"]) DescriptorSet.empty
     rfl rfl (Or.inr rfl)⟩

/-! ## Addresses outside every known function -/

/-- C4: with both addresses supplied and the set-up steps completed, for every verdict
`res` returned by `find_path_hierarchical` (`sat`, `unsat` or `unknown`),
`pathfinder_main` emits that verdict, and no other, and returns `EXIT_SUCCESS`; an
`unknown` verdict raises no error and does not change the return value. -/
theorem pathfinder_main_verdict_is_result {A : Type} (env : Env A)
    (argv : List String) (vm : ProgOptVarMap) (ds : DescriptorSet)
    (source target : String) (srcaddr tgtaddr : rose_addr_t) (sa sa' : A)
    (res : check_result) (ans : Option expr)
    (hvm : env.parse_cert_options argv (pathfinder_options.add env.cert_standard_options)
      = .ok vm)
    (hds : env.DescriptorSet_ctor vm = .ok ds)
    (hs : vm "source" = some source) (ht : vm "target" = some target)
    (hsa : env.parse_number source = .ok srcaddr)
    (hta : env.parse_number target = .ok tgtaddr)
    (han : env.SpacerAnalyzer_ctor (env.resolve_imports ds) (engine_of vm) = .ok sa)
    (hq : env.find_path_hierarchical sa srcaddr tgtaddr none = .ok ((res, ans), sa')) :
    (pathfinder_main env argv).result = .ok EXIT_SUCCESS ∧
    Event.log_result res ∈ (pathfinder_main env argv).trace ∧
    (∀ r, Event.log_result r ∈ (pathfinder_main env argv).trace → r = res) := by
  rw [run_verdict env argv vm ds source target srcaddr tgtaddr sa sa' res ans
    hvm hds hs ht hsa hta han hq]
  refine ⟨rfl, by simp, ?_⟩
  intro r hr
  by_cases h : res = check_result.unknown <;>
    simpa [setup_trace, query_trace, h] using hr

/-- C4, at a concrete query answered `unknown`: the verdict is emitted and the run
returns `EXIT_SUCCESS`. -/
theorem pathfinder_main_verdict_is_result_witness :
    (demoEnv check_result.unknown none).find_path_hierarchical
      { engine := "spacer", queries := 0 } 4198400 4198432 none
      = .ok ((check_result.unknown, none), { engine := "spacer", queries := 1 }) ∧
    (pathfinder_main (demoEnv check_result.unknown none)
      ["--source", "0x401000", "--target", "0x401020"]).result = .ok EXIT_SUCCESS ∧
    Event.log_result check_result.unknown ∈
      (pathfinder_main (demoEnv check_result.unknown none)
        ["--source", "0x401000", "--target", "0x401020"]).trace :=
  ⟨rfl,
   (pathfinder_main_verdict_is_result (demoEnv check_result.unknown none)
      ["--source", "0x401000", "--target", "0x401020"]
      (demo_options ["--source", "0x401000", "--target", "0x401020"]) DescriptorSet.empty
      "0x401000" "0x401020" 4198400 4198432 { engine := "spacer", queries := 0 }
      { engine := "spacer", queries := 1 } check_result.unknown none
      rfl rfl rfl rfl rfl rfl rfl rfl).1,
   (pathfinder_main_verdict_is_result (demoEnv check_result.unknown none)
      ["--source", "0x401000", "--target", "0x401020"]
      (demo_options ["--source", "0x401000", "--target", "0x401020"]) DescriptorSet.empty
      "0x401000" "0x401020" 4198400 4198432 { engine := "spacer", queries := 0 }
      { engine := "spacer", queries := 1 } check_result.unknown none
      rfl rfl rfl rfl rfl rfl rfl rfl).2.1⟩

/-- C5 fails as stated: on a query answered `unsat`, a verdict that is not `sat`, the
answer is emitted all the same. -/
theorem pathfinder_main_unsat_emits_answer :
    Event.log_result check_result.unsat ∈
      (pathfinder_main (demoEnv check_result.unsat (some "(=> (> n 2) false)"))
        ["--source", "0x401000", "--target", "0x401020"]).trace ∧
    Event.log_answer (some "(=> (> n 2) false)") ∈
      (pathfinder_main (demoEnv check_result.unsat (some "(=> (> n 2) false)"))
        ["--source", "0x401000", "--target", "0x401020"]).trace ∧
    check_result.unsat ≠ check_result.sat :=
  ⟨by decide, by decide, by decide⟩

/-- C5, amended: on every run in which `find_path_hierarchical` returns, what follows
the call is the textual encoding, then the verdict, then the answer when the verdict
is not `unknown`, and nothing else; so the encoding and the verdict are always
emitted, encoding first, and the answer is emitted if and only if the verdict is not
`unknown` (for `sat` and for `unsat` alike). -/
theorem pathfinder_main_emits_encoding_verdict_answer {A : Type} (env : Env A)
    (argv : List String) (vm : ProgOptVarMap) (ds : DescriptorSet)
    (source target : String) (srcaddr tgtaddr : rose_addr_t) (sa sa' : A)
    (res : check_result) (ans : Option expr)
    (hvm : env.parse_cert_options argv (pathfinder_options.add env.cert_standard_options)
      = .ok vm)
    (hds : env.DescriptorSet_ctor vm = .ok ds)
    (hs : vm "source" = some source) (ht : vm "target" = some target)
    (hsa : env.parse_number source = .ok srcaddr)
    (hta : env.parse_number target = .ok tgtaddr)
    (han : env.SpacerAnalyzer_ctor (env.resolve_imports ds) (engine_of vm) = .ok sa)
    (hq : env.find_path_hierarchical sa srcaddr tgtaddr none = .ok ((res, ans), sa')) :
    (pathfinder_main env argv).trace =
      [Event.set_glog_name "PF", Event.parse_cert_options argv,
       Event.construct_DescriptorSet, Event.resolve_imports,
       Event.parse_number source, Event.parse_number target,
       Event.construct_PharosZ3Solver, Event.construct_SpacerAnalyzer (engine_of vm),
       Event.find_path_hierarchical srcaddr tgtaddr,
       Event.log_encoding_header, Event.cout_encoding (env.to_string sa' ++ "\n"),
       Event.log_result res] ++
      (if res = check_result.unknown then [] else [Event.log_answer ans]) ∧
    ((pathfinder_main env argv).trace.any Event.is_log_answer = true ↔
      res ≠ check_result.unknown) := by
  rw [run_verdict env argv vm ds source target srcaddr tgtaddr sa sa' res ans
    hvm hds hs ht hsa hta han hq]
  by_cases h : res = check_result.unknown <;>
    simp [setup_trace, query_trace, Event.is_log_answer, h]

/-- C5 amended, at a concrete query answered `unsat`: the answer is emitted. -/
theorem pathfinder_main_emits_encoding_verdict_answer_witness :
    (demoEnv check_result.unsat (some "false")).parse_number "0x401020" = .ok 4198432 ∧
    ((pathfinder_main (demoEnv check_result.unsat (some "false"))
        ["--source", "0x401000", "--target", "0x401020"]).trace.any Event.is_log_answer
      = true ↔ check_result.unsat ≠ check_result.unknown) :=
  ⟨rfl,
   (pathfinder_main_emits_encoding_verdict_answer (demoEnv check_result.unsat (some "false"))
      ["--source", "0x401000", "--target", "0x401020"]
      (demo_options ["--source", "0x401000", "--target", "0x401020"]) DescriptorSet.empty
      "0x401000" "0x401020" 4198400 4198432 { engine := "spacer", queries := 0 }
      { engine := "spacer", queries := 1 } check_result.unsat (some "false")
      rfl rfl rfl rfl rfl rfl rfl rfl).2⟩

/-! ## The engine option (line 46) -/

/-- C9: the engine option is optional.  For every option map with both addresses
present (and parsed), the analyzer is constructed with the value of the `engine`
option when it is supplied and with the name "spacer" when it is not, and with no
other name; and whether a run is rejected for a missing address is decided by the
`source` and `target` entries alone: it is rejected exactly when one of them is
absent, and two runs whose option maps agree on `source` and `target` are both
rejected or both not, whatever their `engine` entries. -/
theorem pathfinder_main_engine_optional {A : Type} (env : Env A)
    (argv : List String) (vm : ProgOptVarMap) (ds : DescriptorSet)
    (hvm : env.parse_cert_options argv (pathfinder_options.add env.cert_standard_options)
      = .ok vm)
    (hds : env.DescriptorSet_ctor vm = .ok ds) :
    (∀ source target srcaddr tgtaddr,
      vm "source" = some source → vm "target" = some target →
      env.parse_number source = .ok srcaddr → env.parse_number target = .ok tgtaddr →
      (∀ engine, vm "engine" = some engine →
        Event.construct_SpacerAnalyzer engine ∈ (pathfinder_main env argv).trace ∧
        ∀ e, Event.construct_SpacerAnalyzer e ∈ (pathfinder_main env argv).trace →
          e = engine) ∧
      (vm "engine" = none →
        Event.construct_SpacerAnalyzer "spacer" ∈ (pathfinder_main env argv).trace ∧
        ∀ e, Event.construct_SpacerAnalyzer e ∈ (pathfinder_main env argv).trace →
          e = "spacer")) ∧
    ((pathfinder_main env argv).rejected = true ↔
      (vm "source" = none ∨ vm "target" = none)) ∧
    (∀ (env' : Env A) (argv' : List String) (vm' : ProgOptVarMap) (ds' : DescriptorSet),
      env'.parse_cert_options argv' (pathfinder_options.add env'.cert_standard_options)
        = .ok vm' →
      env'.DescriptorSet_ctor vm' = .ok ds' →
      vm' "source" = vm "source" → vm' "target" = vm "target" →
      (pathfinder_main env' argv').rejected = (pathfinder_main env argv).rejected) := by
  have key : ∀ (env : Env A) (argv : List String) (vm : ProgOptVarMap) (ds : DescriptorSet),
      env.parse_cert_options argv (pathfinder_options.add env.cert_standard_options)
        = .ok vm →
      env.DescriptorSet_ctor vm = .ok ds →
      (pathfinder_main env argv).rejected =
        ((vm "source").isNone || (vm "target").isNone) := by
    intro env argv vm ds hvm hds
    cases hs : vm "source" with
    | none => rw [run_missing_source env argv vm ds hvm hds hs]; rfl
    | some source =>
      cases ht : vm "target" with
      | none => rw [run_missing_target env argv vm ds source hvm hds hs ht]; rfl
      | some target =>
        rw [run_with_addresses_not_rejected env argv vm ds source target hvm hds hs ht]
        rfl
  refine ⟨?_, ?_, ?_⟩
  · intro source target srcaddr tgtaddr hs ht hsa hta
    have hev := run_analyzer_event env argv vm ds source target srcaddr tgtaddr
      hvm hds hs ht hsa hta
    constructor
    · intro engine he
      have heng : engine_of vm = engine := by simp [engine_of, he]
      exact ⟨(hev engine).mpr heng.symm, fun e h => ((hev e).mp h).trans heng⟩
    · intro he
      have heng : engine_of vm = "spacer" := by simp [engine_of, he]
      exact ⟨(hev "spacer").mpr heng.symm, fun e h => ((hev e).mp h).trans heng⟩
  · rw [key env argv vm ds hvm hds]
    cases vm "source" <;> cases vm "target" <;> simp
  · intro env' argv' vm' ds' hvm' hds' hs' ht'
    rw [key env argv vm ds hvm hds, key env' argv' vm' ds' hvm' hds', hs', ht']

/-- C9, at concrete command lines: with `--engine pdr` the analyzer is constructed with
"pdr", without the option with "spacer". -/
theorem pathfinder_main_engine_optional_witness :
    (demoEnv check_result.sat none).DescriptorSet_ctor
      (demo_options ["--source", "0x401000", "--target", "0x401020", "--engine", "pdr"])
      = .ok DescriptorSet.empty ∧
    Event.construct_SpacerAnalyzer "pdr" ∈
      (pathfinder_main (demoEnv check_result.sat none)
        ["--source", "0x401000", "--target", "0x401020", "--engine", "pdr"]).trace ∧
    Event.construct_SpacerAnalyzer "spacer" ∈
      (pathfinder_main (demoEnv check_result.sat none)
        ["--source", "0x401000", "--target", "0x401020"]).trace :=
  ⟨rfl,
   (((pathfinder_main_engine_optional (demoEnv check_result.sat none)
      ["--source", "0x401000", "--target", "0x401020", "--engine", "pdr"]
      (demo_options ["--source", "0x401000", "--target", "0x401020", "--engine", "pdr"])
      DescriptorSet.empty rfl rfl).1
      "0x401000" "0x401020" 4198400 4198432 rfl rfl rfl rfl).1 "pdr" rfl).1,
   (((pathfinder_main_engine_optional (demoEnv check_result.sat none)
      ["--source", "0x401000", "--target", "0x401020"]
      (demo_options ["--source", "0x401000", "--target", "0x401020"])
      DescriptorSet.empty rfl rfl).1
      "0x401000" "0x401020" 4198400 4198432 rfl rfl rfl rfl).2 rfl).1⟩

/-! ## Order of the steps of a path query -/

/-- C10: in every run of `pathfinder_main` that performs a path query,
`resolve_imports()` is invoked exactly once, strictly before the analyzer is
constructed, which in turn precedes the call of `find_path_hierarchical`;
`find_path_hierarchical` is called exactly once, its arguments being the parsed value
of the `source` option and the parsed value of the `target` option, in that order. -/
theorem pathfinder_main_query_order {A : Type} (env : Env A) (argv : List String)
    (a b : rose_addr_t)
    (hq : Event.find_path_hierarchical a b ∈ (pathfinder_main env argv).trace) :
    (pathfinder_main env argv).trace.count Event.resolve_imports = 1 ∧
    (pathfinder_main env argv).trace.countP Event.is_find_path_hierarchical = 1 ∧
    (∃ vm source target,
      env.parse_cert_options argv (pathfinder_options.add env.cert_standard_options)
        = .ok vm ∧
      vm "source" = some source ∧ vm "target" = some target ∧
      env.parse_number source = .ok a ∧ env.parse_number target = .ok b) ∧
    (∃ engine,
      Event.construct_SpacerAnalyzer engine ∈ (pathfinder_main env argv).trace ∧
      (pathfinder_main env argv).trace.countP Event.is_construct_SpacerAnalyzer = 1 ∧
      (pathfinder_main env argv).trace.indexOf Event.resolve_imports <
        (pathfinder_main env argv).trace.indexOf (Event.construct_SpacerAnalyzer engine) ∧
      (pathfinder_main env argv).trace.indexOf (Event.construct_SpacerAnalyzer engine) <
        (pathfinder_main env argv).trace.indexOf (Event.find_path_hierarchical a b) ∧
      (pathfinder_main env argv).trace.indexOf Event.resolve_imports <
        (pathfinder_main env argv).trace.indexOf (Event.find_path_hierarchical a b)) := by
  obtain ⟨vm, ds, source, target, sa, hvm, hds, hs, ht, hsa, hta, han, tail, htr, htail⟩ :=
    run_reaches_solver env argv a b hq
  have h1 : tail.count Event.resolve_imports = 0 := by
    rw [List.count_eq_zero]
    intro hmem
    rcases htail _ hmem with h | ⟨_, h⟩ | ⟨_, h⟩ | ⟨_, h⟩ <;> cases h
  have h2 : tail.countP Event.is_find_path_hierarchical = 0 := by
    rw [List.countP_eq_zero]
    intro e hmem
    rcases htail e hmem with h | ⟨_, h⟩ | ⟨_, h⟩ | ⟨_, h⟩ <;> subst h <;>
      simp [Event.is_find_path_hierarchical]
  have h3 : tail.countP Event.is_construct_SpacerAnalyzer = 0 := by
    rw [List.countP_eq_zero]
    intro e hmem
    rcases htail e hmem with h | ⟨_, h⟩ | ⟨_, h⟩ | ⟨_, h⟩ <;> subst h <;>
      simp [Event.is_construct_SpacerAnalyzer]
  rw [htr]
  refine ⟨?_, ?_, ⟨vm, source, target, hvm, hs, ht, hsa, hta⟩, engine_of vm,
    ?_, ?_, ?_, ?_, ?_⟩
  · simp [setup_trace, query_trace, h1]
  · simp [setup_trace, query_trace, h2, Event.is_find_path_hierarchical, List.countP_cons]
  · simp [setup_trace, query_trace]
  · simp [setup_trace, query_trace, h3, Event.is_construct_SpacerAnalyzer, List.countP_cons]
  · simp [setup_trace, query_trace, List.indexOf_cons]
  · simp [setup_trace, query_trace, List.indexOf_cons]
  · simp [setup_trace, query_trace, List.indexOf_cons]

/-- C10, at a concrete query: `resolve_imports()` occurs once, before the construction
of the analyzer, and the call of `find_path_hierarchical` occurs once. -/
theorem pathfinder_main_query_order_witness :
    Event.find_path_hierarchical 4198400 4198432 ∈
      (pathfinder_main (demoEnv check_result.sat (some "n = 3"))
        ["--source", "0x401000", "--target", "0x401020"]).trace ∧
    (pathfinder_main (demoEnv check_result.sat (some "n = 3"))
        ["--source", "0x401000", "--target", "0x401020"]).trace.count
      Event.resolve_imports = 1 ∧
    (pathfinder_main (demoEnv check_result.sat (some "n = 3"))
        ["--source", "0x401000", "--target", "0x401020"]).trace.countP
      Event.is_find_path_hierarchical = 1 :=
  ⟨by decide,
   (pathfinder_main_query_order (demoEnv check_result.sat (some "n = 3"))
      ["--source", "0x401000", "--target", "0x401020"] 4198400 4198432 (by decide)).1,
   (pathfinder_main_query_order (demoEnv check_result.sat (some "n = 3"))
      ["--source", "0x401000", "--target", "0x401020"] 4198400 4198432 (by decide)).2.1⟩

/-! ## Descriptor lookups and get-or-create -/

theorem lookup_eq_some_iff_stored {D : Type} (m : DescriptorMap D) (a : rose_addr_t) (d : D) :
    AList.lookup a m = some d ↔ Sigma.mk a d ∈ m.entries := by
  constructor
  · intro h
    exact AList.mem_lookup_iff.mp (Option.mem_def.mpr h)
  · intro h
    exact Option.mem_def.mp (AList.mem_lookup_iff.mpr h)

theorem lookup_eq_none_iff_no_key {D : Type} (m : DescriptorMap D) (a : rose_addr_t) :
    AList.lookup a m = none ↔ a ∉ m.keys := by
  rw [AList.lookup_eq_none, AList.mem_keys]

theorem count_key_of_lookup {D : Type} (m : DescriptorMap D) (a : rose_addr_t) (d : D)
    (h : AList.lookup a m = some d) : m.keys.count a = 1 := by
  have hmem : a ∈ m.keys := by
    rw [← AList.mem_keys, ← AList.lookup_isSome, h]
    rfl
  exact List.count_eq_one_of_mem m.keys_nodup hmem

/-- C6: for every descriptor set and every address, each of the lookups `get_func`,
`get_call`, `get_import`, `get_global` returns exactly the result of looking the
address up in the corresponding descriptor map: the stored descriptor when the address
is a key, and the not-found value when it is not (a value in both cases, never an
error); the `get_rw_` variant returns the same result as the const variant and leaves
the descriptor set, hence every map, unchanged. -/
theorem descriptor_lookups_total (ds : DescriptorSet) (a : rose_addr_t) :
    (ds.get_func a = ds.get_func_map.get_func a ∧
      (∀ d, ds.get_func a = some d ↔ Sigma.mk a d ∈ ds.function_descriptors.entries) ∧
      (ds.get_func a = none ↔ a ∉ ds.function_descriptors.keys) ∧
      (ds.get_rw_func a).1 = ds.get_func a ∧ (ds.get_rw_func a).2 = ds) ∧
    (ds.get_call a = ds.get_call_map.get_call a ∧
      (∀ d, ds.get_call a = some d ↔ Sigma.mk a d ∈ ds.call_descriptors.entries) ∧
      (ds.get_call a = none ↔ a ∉ ds.call_descriptors.keys) ∧
      (ds.get_rw_call a).1 = ds.get_call a ∧ (ds.get_rw_call a).2 = ds) ∧
    (ds.get_import a = ds.get_import_map.get_import a ∧
      (∀ d, ds.get_import a = some d ↔ Sigma.mk a d ∈ ds.import_descriptors.entries) ∧
      (ds.get_import a = none ↔ a ∉ ds.import_descriptors.keys) ∧
      (ds.get_rw_import a).1 = ds.get_import a ∧ (ds.get_rw_import a).2 = ds) ∧
    (ds.get_global a = ds.get_global_map.get_global a ∧
      (∀ d, ds.get_global a = some d ↔ Sigma.mk a d ∈ ds.global_descriptors.entries) ∧
      (ds.get_global a = none ↔ a ∉ ds.global_descriptors.keys) ∧
      (ds.get_rw_global a).1 = ds.get_global a ∧ (ds.get_rw_global a).2 = ds) :=
  ⟨⟨rfl, fun d => lookup_eq_some_iff_stored ds.function_descriptors a d,
      lookup_eq_none_iff_no_key ds.function_descriptors a, rfl, rfl⟩,
   ⟨rfl, fun d => lookup_eq_some_iff_stored ds.call_descriptors a d,
      lookup_eq_none_iff_no_key ds.call_descriptors a, rfl, rfl⟩,
   ⟨rfl, fun d => lookup_eq_some_iff_stored ds.import_descriptors a d,
      lookup_eq_none_iff_no_key ds.import_descriptors a, rfl, rfl⟩,
   ⟨rfl, fun d => lookup_eq_some_iff_stored ds.global_descriptors a d,
      lookup_eq_none_iff_no_key ds.global_descriptors a, rfl, rfl⟩⟩

theorem add_function_descriptor_spec (ds : DescriptorSet) (addr : rose_addr_t)
    (args : Option SgAsmFunction) :
    (ds.add_function_descriptor addr args).2.get_func addr =
      some (ds.add_function_descriptor addr args).1 := by
  unfold DescriptorSet.add_function_descriptor
  cases h : ds.function_descriptors.get_func addr with
  | some fd => simpa [DescriptorSet.get_func] using h
  | none =>
    simp [DescriptorSet.get_func, FunctionDescriptorMap.get_func, AList.lookup_insert]

theorem add_function_descriptor_existing (ds : DescriptorSet) (addr : rose_addr_t)
    (args : Option SgAsmFunction) (fd : FunctionDescriptor)
    (h : ds.get_func addr = some fd) :
    ds.add_function_descriptor addr args = (fd, ds) := by
  unfold DescriptorSet.get_func at h
  simp [DescriptorSet.add_function_descriptor, h]

theorem add_import_spec (ds : DescriptorSet) (addr : rose_addr_t) (dll name : String)
    (ord : Nat) :
    (ds.add_import addr dll name ord).2.get_import addr =
      some (ds.add_import addr dll name ord).1 := by
  unfold DescriptorSet.add_import
  cases h : ds.import_descriptors.get_import addr with
  | some fd => simpa [DescriptorSet.get_import] using h
  | none =>
    simp [DescriptorSet.get_import, ImportDescriptorMap.get_import, AList.lookup_insert]

theorem add_import_existing (ds : DescriptorSet) (addr : rose_addr_t) (dll name : String)
    (ord : Nat) (id : ImportDescriptor) (h : ds.get_import addr = some id) :
    ds.add_import addr dll name ord = (id, ds) := by
  unfold DescriptorSet.get_import at h
  simp [DescriptorSet.add_import, h]

/-- C7: get-or-create is idempotent.  For every descriptor set and address, a second
`add_function_descriptor` for the same address (whatever its further arguments, and
likewise when both calls pass a recovered function with that entry address) and a
second `add_import` for the same address return the identical descriptor as the first
call, construct nothing and leave the descriptor set as the first call left it, the map
then holds exactly one entry for the address, and a later lookup of the address returns
that same descriptor. -/
theorem get_or_create_idempotent (ds : DescriptorSet) (addr : rose_addr_t) :
    (∀ args1 args2 : Option SgAsmFunction,
      ((ds.add_function_descriptor addr args1).2.add_function_descriptor addr args2).1 =
        (ds.add_function_descriptor addr args1).1 ∧
      ((ds.add_function_descriptor addr args1).2.add_function_descriptor addr args2).2 =
        (ds.add_function_descriptor addr args1).2 ∧
      ((ds.add_function_descriptor addr args1).2.add_function_descriptor addr
        args2).2.function_descriptors.keys.count addr = 1 ∧
      ((ds.add_function_descriptor addr args1).2.add_function_descriptor addr
        args2).2.get_func addr = some (ds.add_function_descriptor addr args1).1) ∧
    (∀ name1 name2 : String,
      ((ds.add_function_descriptor_SgAsmFunction
          { entry_va := addr, name := name1 }).2.add_function_descriptor_SgAsmFunction
          { entry_va := addr, name := name2 }).1 =
        (ds.add_function_descriptor_SgAsmFunction { entry_va := addr, name := name1 }).1 ∧
      ((ds.add_function_descriptor_SgAsmFunction
          { entry_va := addr, name := name1 }).2.add_function_descriptor_SgAsmFunction
          { entry_va := addr, name := name2 }).2.function_descriptors.keys.count addr = 1 ∧
      ((ds.add_function_descriptor_SgAsmFunction
          { entry_va := addr, name := name1 }).2.add_function_descriptor_SgAsmFunction
          { entry_va := addr, name := name2 }).2.get_func addr =
        some (ds.add_function_descriptor_SgAsmFunction
          { entry_va := addr, name := name1 }).1) ∧
    (∀ (dll1 name1 : String) (ord1 : Nat) (dll2 name2 : String) (ord2 : Nat),
      ((ds.add_import addr dll1 name1 ord1).2.add_import addr dll2 name2 ord2).1 =
        (ds.add_import addr dll1 name1 ord1).1 ∧
      ((ds.add_import addr dll1 name1 ord1).2.add_import addr dll2 name2 ord2).2 =
        (ds.add_import addr dll1 name1 ord1).2 ∧
      ((ds.add_import addr dll1 name1 ord1).2.add_import addr dll2 name2
        ord2).2.import_descriptors.keys.count addr = 1 ∧
      ((ds.add_import addr dll1 name1 ord1).2.add_import addr dll2 name2
        ord2).2.get_import addr = some (ds.add_import addr dll1 name1 ord1).1) := by
  have hf : ∀ args1 args2 : Option SgAsmFunction,
      ((ds.add_function_descriptor addr args1).2.add_function_descriptor addr args2) =
        ((ds.add_function_descriptor addr args1).1,
         (ds.add_function_descriptor addr args1).2) := fun args1 args2 =>
    add_function_descriptor_existing _ addr args2 _
      (add_function_descriptor_spec ds addr args1)
  have hi : ∀ (dll1 name1 : String) (ord1 : Nat) (dll2 name2 : String) (ord2 : Nat),
      ((ds.add_import addr dll1 name1 ord1).2.add_import addr dll2 name2 ord2) =
        ((ds.add_import addr dll1 name1 ord1).1, (ds.add_import addr dll1 name1 ord1).2) :=
    fun dll1 name1 ord1 dll2 name2 ord2 =>
      add_import_existing _ addr dll2 name2 ord2 _ (add_import_spec ds addr dll1 name1 ord1)
  refine ⟨?_, ?_, ?_⟩
  · intro args1 args2
    rw [hf args1 args2]
    exact ⟨rfl, rfl,
      count_key_of_lookup _ addr _ (add_function_descriptor_spec ds addr args1),
      add_function_descriptor_spec ds addr args1⟩
  · intro name1 name2
    unfold DescriptorSet.add_function_descriptor_SgAsmFunction SgAsmFunction.get_entry_va
    rw [hf]
    exact ⟨rfl, count_key_of_lookup _ addr _ (add_function_descriptor_spec ds addr _),
      add_function_descriptor_spec ds addr _⟩
  · intro dll1 name1 ord1 dll2 name2 ord2
    rw [hi dll1 name1 ord1 dll2 name2 ord2]
    exact ⟨rfl, rfl,
      count_key_of_lookup _ addr _ (add_import_spec ds addr dll1 name1 ord1),
      add_import_spec ds addr dll1 name1 ord1⟩

/-! ## The compound-condition scenario -/

/-- C8: for every `int` value `n`, the execution of `func(n)` starts at `path_start()`
and reaches the `path_goal()` call if and only if `2 < n < 10`, performing no marker
call after `path_start()` otherwise; the goal is reachable, for instance with `n = 3`
(a value of type `int`), and every input that reaches the goal satisfies
`2 < n < 10`. -/
theorem func_reaches_goal_iff (n : Int) :
    (compound_condition_param.func n).head? = some compound_condition_param.Marker.path_start ∧
    (compound_condition_param.Marker.path_goal ∈ compound_condition_param.func n ↔
      2 < n ∧ n < 10) ∧
    (compound_condition_param.func n =
      [compound_condition_param.Marker.path_start,
       compound_condition_param.Marker.path_goal] ↔ 2 < n ∧ n < 10) ∧
    (compound_condition_param.func n = [compound_condition_param.Marker.path_start] ↔
      ¬ (2 < n ∧ n < 10)) ∧
    compound_condition_param.main 3 =
      [compound_condition_param.Marker.path_start,
       compound_condition_param.Marker.path_goal] ∧
    compound_condition_param.INT_MIN ≤ 3 ∧ 3 ≤ compound_condition_param.INT_MAX := by
  have h3 : compound_condition_param.main 3 =
      [compound_condition_param.Marker.path_start,
       compound_condition_param.Marker.path_goal] := by decide
  have hlo : compound_condition_param.INT_MIN ≤ 3 := by decide
  have hhi : (3 : Int) ≤ compound_condition_param.INT_MAX := by decide
  by_cases h : 2 < n ∧ n < 10
  · have hf : compound_condition_param.func n =
        [compound_condition_param.Marker.path_start,
         compound_condition_param.Marker.path_goal] := by
      simp [compound_condition_param.func, h.1, h.2]
    rw [hf]
    simp [h, h3, hlo, hhi]
  · have hf : compound_condition_param.func n =
        [compound_condition_param.Marker.path_start] := by
      have h' : ¬ (n > 2 ∧ n < 10) := h
      simp only [compound_condition_param.func, Bool.and_eq_true, decide_eq_true_eq, h',
        if_false]
    rw [hf]
    simp [h, h3, hlo, hhi]

end pharos
